import Mathlib

/-
Verification of the cloud output device reconciliation core
(plugins/UM3NetworkPrinting/src/Cloud/CloudOutputDeviceManager.py).

The manager state is embedded as an explicit record; every Python method
of CloudOutputDeviceManager becomes a state-passing function.  Side
effects on external collaborators (device connect/disconnect/close calls,
output device registry adds/removes, timer arming, poll requests, and
user-facing messages) are recorded in an event log so that ordering
claims can be stated about the trace.  The device table, a Python dict,
is embedded as an insertion-ordered association list with Python dict
semantics: assignment to an existing key replaces the value in place,
assignment to a fresh key appends, deletion removes the key.
-/

namespace CuraCloud

/-- Snapshot of one remote cluster as returned by the API.
Modelled from the spec: the Models/CloudClusterResponse class is not part
of the analysed sources; the spec (section 3) gives the three fields used
by the reconciliation core. -/
structure CloudClusterResponse where
  cluster_id : String
  host_name : String
  is_online : Bool
deriving DecidableEq

/-- One error record of a failed poll.
Modelled from the spec: the Models/CloudErrorObject class is not part of
the analysed sources; the core only reads its human-readable title. -/
structure CloudErrorObject where
  title : String
deriving DecidableEq

/-- Local stateful proxy for one online remote cluster.
Modelled from the spec: the CloudOutputDevice class is not part of the
analysed sources.  Per the spec (section 4.2) a device carries its key
(equal to the cluster id it was constructed with), a host name, a
two-state connection flag, and an externally supplied network-key
matching predicate. -/
structure CloudOutputDevice where
  key : String
  host_name : String
  connected : Bool
  matchesNetworkKey : String → Bool

/-- State of the QTimer used for polling: interval in milliseconds,
single-shot flag and whether the timer is currently active. -/
structure QTimerState where
  interval : Nat
  singleShot : Bool
  active : Bool
deriving DecidableEq

/-- The active machine (GlobalStack), reduced to the metadata key/value
store consulted and written by the resolver. -/
structure GlobalStack where
  metadata : List (String × String)
deriving DecidableEq

/-- Observable side effects of the manager, recorded in issue order. -/
inductive Event where
  | disconnect (key : String)
  | close (key : String)
  | connect (key : String)
  | registryAdd (key : String)
  | registryRemove (key : String)
  | timerStart
  | timerStop
  | pollRequested
  | messageShown (text : String)
deriving DecidableEq

/-- Lookup in a Python dict embedded as an association list. -/
def dictLookup (d : List (String × β)) (k : String) : Option β :=
  (d.find? (fun p => p.1 == k)).map (·.2)

/-- The keys of an embedded dict, in insertion order. -/
def dictKeys (d : List (String × β)) : List String :=
  d.map (·.1)

/-- Deletion from an embedded dict (Python del d[k]). -/
def dictErase (d : List (String × β)) (k : String) : List (String × β) :=
  d.filter (fun p => !(p.1 == k))

/-- Assignment d[k] = v with Python dict semantics: an existing key keeps
its position and gets the new value, a fresh key is appended. -/
def dictInsert (d : List (String × β)) (k : String) (v : β) : List (String × β) :=
  if (d.find? (fun p => p.1 == k)).isSome then
    d.map (fun p => if p.1 == k then (k, v) else p)
  else
    d ++ [(k, v)]

/-- The dict comprehension of line 72 of the source,
online_clusters = the c.cluster_id keyed dict of the online records. -/
def pyDictById (cs : List CloudClusterResponse) : List (String × CloudClusterResponse) :=
  cs.foldl (fun d c => dictInsert d c.cluster_id c) []

/-- Diff of the previous device table against the current record dict.
Modelled from the spec: Utils.findChanges is imported by the manager but
is not part of the analysed sources.  Per the spec (section 4.1):
removed are the devices whose key is absent from current, added are the
records whose key is absent from previous, updated are the pairs whose
key exists in both and whose host_name differs. -/
def findChanges (previous : List (String × CloudOutputDevice))
    (current : List (String × CloudClusterResponse)) :
    List CloudOutputDevice × List CloudClusterResponse ×
      List (CloudOutputDevice × CloudClusterResponse) :=
  ((previous.filter (fun p => (dictLookup current p.1).isNone)).map (·.2),
   (current.filter (fun c => (dictLookup previous c.1).isNone)).map (·.2),
   current.filterMap (fun c =>
     match dictLookup previous c.1 with
     | none => none
     | some d => if d.host_name == c.2.host_name then none else some (d, c.2)))

/-- Full manager state: the device table and timer of __init__, the
running flag, the subscription counters of the three signal connections
made by start and released by stop, the login flag and active machine of
the external collaborators, the registry keys written by this manager,
the shown messages, the event trace, and the external capability that
supplies the network-key predicate of newly constructed devices. -/
structure ManagerState where
  remote_clusters : List (String × CloudOutputDevice)
  registry : List String
  update_timer : QTimerState
  running : Bool
  loginSubscribed : Nat
  machineChangedSubscribed : Nat
  timeoutConnected : Nat
  isLoggedIn : Bool
  active_machine : Option GlobalStack
  messages : List String
  events : List Event
  matcherFor : String → String → Bool

/-- META_CLUSTER_ID of the source. -/
def META_CLUSTER_ID : String := "um_cloud_cluster_id"

/-- Append one event to the trace. -/
def logEvent (s : ManagerState) (e : Event) : ManagerState :=
  { s with events := s.events ++ [e] }

/-- The state produced by __init__: empty table, 50 second repeating
timer (setInterval(int(50.0 * 1000)), setSingleShot(False)), not active,
running = False, nothing subscribed yet. -/
def initState (is_logged_in : Bool) (machine : Option GlobalStack)
    (matcher : String → String → Bool) : ManagerState :=
  { remote_clusters := []
    registry := []
    update_timer := { interval := 50000, singleShot := false, active := false }
    running := false
    loginSubscribed := 0
    machineChangedSubscribed := 0
    timeoutConnected := 0
    isLoggedIn := is_logged_in
    active_machine := machine
    messages := []
    events := []
    matcherFor := matcher }

/-- getMetaDataEntry of a GlobalStack (None when the key is absent). -/
def getMetaDataEntry (m : GlobalStack) (k : String) : Option String :=
  dictLookup m.metadata k

/-- setMetaDataEntry of a GlobalStack. -/
def setMetaDataEntry (m : GlobalStack) (k v : String) : GlobalStack :=
  { m with metadata := dictInsert m.metadata k v }

/-- A device.connect() call on the device stored at entry key k: the
table entry is marked Connected and the call is traced. -/
def connectDevice (s : ManagerState) (k : String) : ManagerState :=
  { logEvent s (Event.connect k) with
    remote_clusters := s.remote_clusters.map
      (fun p => if p.1 == k then (p.1, { p.2 with connected := true }) else p) }

/-- Lines 113 to 123, _connectByNetworkKey: read the local network key
(absent or empty means no key, per Python truthiness), find the first
device of the table matching it, store its key as the machine cluster id
and connect it. -/
def connectByNetworkKey (s : ManagerState) (machine : GlobalStack) : ManagerState :=
  match getMetaDataEntry machine "um_network_key" with
  | none => s
  | some local_network_key =>
    if local_network_key == "" then s
    else
      match (s.remote_clusters.map (·.2)).find? (fun c => c.matchesNetworkKey local_network_key) with
      | none => s
      | some device =>
        let machine2 := setMetaDataEntry machine META_CLUSTER_ID device.key
        connectDevice { s with active_machine := some machine2 } device.key

/-- Lines 98 to 111, _connectToActiveMachine: no-op without an active
machine; if the stored cluster id is a key of the table, connect that
device when it is not yet connected; otherwise fall back to the network
key scan. -/
def connectToActiveMachine (s : ManagerState) : ManagerState :=
  match s.active_machine with
  | none => s
  | some active_machine =>
    match getMetaDataEntry active_machine META_CLUSTER_ID with
    | some stored_cluster_id =>
      match dictLookup s.remote_clusters stored_cluster_id with
      | some device =>
        if device.connected then s else connectDevice s stored_cluster_id
      | none => connectByNetworkKey s active_machine
    | none => connectByNetworkKey s active_machine

/-- Teardown trace of one removed device, lines 79 to 83: disconnect only
when connected, then close, then the registry removal call. -/
def teardownEvents (d : CloudOutputDevice) : List Event :=
  (if d.connected then [Event.disconnect d.key] else [])
    ++ [Event.close d.key, Event.registryRemove d.key]

/-- Lines 79 to 84, one iteration of the removal loop: disconnect if
connected, close, remove from the output device registry, delete from the
table. -/
def removeDevice (s : ManagerState) (d : CloudOutputDevice) : ManagerState :=
  let s1 := if d.connected then logEvent s (Event.disconnect d.key) else s
  let s2 := logEvent s1 (Event.close d.key)
  let s3 := logEvent s2 (Event.registryRemove d.key)
  let s4 := { s3 with registry := s3.registry.filter (fun k => !(k == d.key)) }
  { s4 with remote_clusters := dictErase s4.remote_clusters d.key }

/-- The removal loop over the removed_devices list. -/
def applyRemoved (s : ManagerState) (ds : List CloudOutputDevice) : ManagerState :=
  ds.foldl removeDevice s

/-- Lines 88 to 91, one iteration of the addition loop: construct a
CloudOutputDevice for the cluster, register it, store it in the table. -/
def addDevice (s : ManagerState) (c : CloudClusterResponse) : ManagerState :=
  let device : CloudOutputDevice :=
    { key := c.cluster_id, host_name := c.host_name, connected := false,
      matchesNetworkKey := s.matcherFor c.cluster_id }
  let s1 := logEvent s (Event.registryAdd c.cluster_id)
  let s2 := { s1 with registry := s1.registry ++ [c.cluster_id] }
  { s2 with remote_clusters := dictInsert s2.remote_clusters c.cluster_id device }

/-- The addition loop over the added_clusters list. -/
def applyAdded (s : ManagerState) (cs : List CloudClusterResponse) : ManagerState :=
  cs.foldl addDevice s

/-- Lines 93 to 94, one update pair: patch the host name of the table
entry holding the device. -/
def updateHost (s : ManagerState) (dc : CloudOutputDevice × CloudClusterResponse) :
    ManagerState :=
  { s with remote_clusters := s.remote_clusters.map (fun p =>
      if p.1 == dc.1.key then (p.1, { p.2 with host_name := dc.2.host_name }) else p) }

/-- The update loop over the updates list. -/
def applyUpdates (s : ManagerState)
    (us : List (CloudOutputDevice × CloudClusterResponse)) : ManagerState :=
  us.foldl updateHost s

/-- Lines 71 to 96, _onGetRemoteClustersFinished: filter the response to
online records, diff against the table, apply removed then added then
updated, then invoke the connection resolver. -/
def onGetRemoteClustersFinished (s : ManagerState)
    (clusters : List CloudClusterResponse) : ManagerState :=
  let online_clusters := pyDictById (clusters.filter (fun c => c.is_online))
  let changes := findChanges s.remote_clusters online_clusters
  connectToActiveMachine (applyUpdates (applyAdded (applyRemoved s changes.1) changes.2.1) changes.2.2)

/-- Lines 65 to 68, _getRemoteClusters: issue an asynchronous getClusters
request to the API client. -/
def getRemoteClusters (s : ManagerState) : ManagerState :=
  logEvent s Event.pollRequested

/-- Lines 51 to 63, _onLoginStateChanged: when logged in, start the timer
if inactive and poll; when logged out, stop the timer if active and run
the reconciliation with an empty synthetic result set. -/
def onLoginStateChanged (s : ManagerState) (is_logged_in : Bool) : ManagerState :=
  if is_logged_in then
    let s1 := if s.update_timer.active then s
      else { logEvent s Event.timerStart with
             update_timer := { s.update_timer with active := true } }
    getRemoteClusters s1
  else
    let s1 := if s.update_timer.active then
        { logEvent s Event.timerStop with
          update_timer := { s.update_timer with active := false } }
      else s
    onGetRemoteClustersFinished s1 []

/-- Lines 125 to 135, _onApiError: show one message whose text is the
error titles joined by ". "; nothing else is touched. -/
def onApiError (s : ManagerState) (errors : List CloudErrorObject) : ManagerState :=
  let text := String.intercalate ". " (errors.map (·.title))
  { logEvent s (Event.messageShown text) with messages := s.messages ++ [text] }

/-- Lines 137 to 145, start: return if running, otherwise connect the
three signals and synthesize a login evaluation with the current login
state.  Note the source never assigns _running. -/
def start (s : ManagerState) : ManagerState :=
  if s.running then s
  else
    let s1 := { s with loginSubscribed := s.loginSubscribed + 1 }
    let s2 := { s1 with machineChangedSubscribed := s1.machineChangedSubscribed + 1 }
    let s3 := { s2 with timeoutConnected := s2.timeoutConnected + 1 }
    onLoginStateChanged s3 s3.isLoggedIn

/-- Lines 147 to 155, stop: return if not running, otherwise release the
three signal connections and synthesize a logged-out evaluation.  Note
the source never assigns _running. -/
def stop (s : ManagerState) : ManagerState :=
  if !s.running then s
  else
    let s1 := { s with loginSubscribed := s.loginSubscribed - 1 }
    let s2 := { s1 with machineChangedSubscribed := s1.machineChangedSubscribed - 1 }
    let s3 := { s2 with timeoutConnected := s2.timeoutConnected - 1 }
    onLoginStateChanged s3 false

/-- Modelled from the spec: the fallback of Connection Resolver steps 3
to 5 (section 4.3), written from the words of the spec for comparison
with the source translation.  Read the local network key of the machine;
when absent (or empty, which Python treats as no key) do nothing; else
scan the table for the first device whose matchesNetworkKey predicate
accepts the key; when found, write that device key as the stored cluster
identity of the machine and connect it; when nothing matches, do
nothing. -/
def resolverSpecFallback (s : ManagerState) (machine : GlobalStack) : ManagerState :=
  match getMetaDataEntry machine "um_network_key" with
  | none => s
  | some k =>
    if k == "" then s
    else
      match (s.remote_clusters.map (·.2)).find? (fun d => d.matchesNetworkKey k) with
      | some d =>
        connectDevice { s with
          active_machine := some (setMetaDataEntry machine META_CLUSTER_ID d.key) } d.key
      | none => s

/-- Modelled from the spec: the Connection Resolver algorithm of section
4.3, written from the words of the spec (and of claim C5) for comparison
with the source translation connectToActiveMachine.  If no active
machine is designated, no-op.  If the stored cluster identity of the
machine names a device present in the table, connect that device only
when it is not already Connected and do not fall through to the network
key scan.  Otherwise run the network key fallback. -/
def connectResolverSpec (s : ManagerState) : ManagerState :=
  match s.active_machine with
  | none => s
  | some machine =>
    match getMetaDataEntry machine META_CLUSTER_ID with
    | some stored =>
      match dictLookup s.remote_clusters stored with
      | some device =>
        if device.connected then s else connectDevice s stored
      | none => resolverSpecFallback s machine
    | none => resolverSpecFallback s machine

/-- Table and registry synchrony: a key is in the device table exactly
when this manager has added it to the output device registry and not yet
removed it, and every table entry holds a device whose key equals the
entry key (the cluster id it was constructed with). -/
def managerInv (s : ManagerState) : Prop :=
  (∀ k : String, k ∈ dictKeys s.remote_clusters ↔ k ∈ s.registry) ∧
  (∀ p ∈ s.remote_clusters, p.2.key = p.1)

/-- A matcher that accepts nothing, used for concrete states. -/
def constFalseMatcher : String → String → Bool := fun _ _ => false

/-- Concrete device with key A, disconnected, matching no network key. -/
def devA : CloudOutputDevice :=
  { key := "A", host_name := "hA", connected := false, matchesNetworkKey := fun _ => false }

/-- Concrete device with key B, connected, matching network key nk. -/
def devB : CloudOutputDevice :=
  { key := "B", host_name := "hB", connected := true, matchesNetworkKey := fun k => k == "nk" }

/-- A concrete base state holding devices A and B, registry in sync,
logged in, timer active. -/
def sampleState : ManagerState :=
  { remote_clusters := [("A", devA), ("B", devB)]
    registry := ["A", "B"]
    update_timer := { interval := 50000, singleShot := false, active := true }
    running := false
    loginSubscribed := 1
    machineChangedSubscribed := 1
    timeoutConnected := 1
    isLoggedIn := true
    active_machine := none
    messages := []
    events := []
    matcherFor := constFalseMatcher }

/-- Concrete machine bound to cluster A and carrying network key nk. -/
def machBound : GlobalStack :=
  { metadata := [("um_cloud_cluster_id", "A"), ("um_network_key", "nk")] }

/-- Concrete state for the sticky binding witness: the machine is bound
to A while device B matches its network key. -/
def stickyState : ManagerState :=
  { sampleState with active_machine := some machBound }

/-- Concrete state for the drain witnesses: sampleState with the running
flag set. -/
def runningState : ManagerState :=
  { sampleState with running := true }

/-- Concrete online cluster record c1. -/
def clusterC1 : CloudClusterResponse :=
  { cluster_id := "c1", host_name := "h", is_online := true }

/-- Concrete offline cluster record for key A. -/
def clusterAOffline : CloudClusterResponse :=
  { cluster_id := "A", host_name := "hA2", is_online := false }

theorem dictLookup_nil (k : String) : dictLookup ([] : List (String × β)) k = none := rfl

theorem mem_dictKeys {d : List (String × β)} {k : String} :
    k ∈ dictKeys d ↔ (dictLookup d k).isSome := by
  simp [dictKeys, dictLookup, List.mem_map, List.find?_isSome]

theorem dictKeys_map_of_fst {f : (String × β) → (String × β)} (h : ∀ p, (f p).1 = p.1)
    (l : List (String × β)) : dictKeys (l.map f) = dictKeys l := by
  simp only [dictKeys, List.map_map]
  exact List.map_congr_left (fun p _ => h p)

theorem mem_dictKeys_dictInsert {d : List (String × β)} {k k' : String} {v : β} :
    k' ∈ dictKeys (dictInsert d k v) ↔ k' ∈ dictKeys d ∨ k' = k := by
  unfold dictInsert
  split
  · next h =>
    rw [dictKeys_map_of_fst]
    · constructor
      · exact Or.inl
      · rintro (hk | rfl)
        · exact hk
        · rw [mem_dictKeys, dictLookup]
          cases hf : d.find? (fun p => p.1 == k') with
          | none => rw [hf] at h; simp at h
          | some p => simp
    · intro p
      by_cases hp : (p.1 == k) = true
      · have hpk : p.1 = k := by simpa using hp
        simp [hp, hpk]
      · simp [hp]
  · simp [dictKeys, List.mem_map]

theorem mem_of_mem_dictInsert {d : List (String × β)} {k : String} {v : β} {p : String × β}
    (h : p ∈ dictInsert d k v) : p ∈ d ∨ p = (k, v) := by
  unfold dictInsert at h
  split at h
  · rw [List.mem_map] at h
    obtain ⟨q, hq, rfl⟩ := h
    by_cases hqk : q.1 == k
    · simp [hqk]
    · simp [hqk]
      exact Or.inl hq
  · rw [List.mem_append] at h
    rcases h with h | h
    · exact Or.inl h
    · simp at h
      exact Or.inr h

theorem mem_dictKeys_foldl_dictInsert {f : α → String} {g : α → β} {l : List α}
    {d : List (String × β)} {k : String} :
    k ∈ dictKeys (l.foldl (fun d x => dictInsert d (f x) (g x)) d) ↔
      k ∈ dictKeys d ∨ ∃ x ∈ l, f x = k := by
  induction l generalizing d with
  | nil => simp
  | cons x xs ih =>
    rw [List.foldl_cons, ih]
    rw [mem_dictKeys_dictInsert]
    constructor
    · rintro ((h | rfl) | h)
      · exact Or.inl h
      · exact Or.inr ⟨x, by simp⟩
      · obtain ⟨y, hy, hk⟩ := h
        exact Or.inr ⟨y, List.mem_cons_of_mem x hy, hk⟩
    · rintro (h | ⟨y, hy, hk⟩)
      · exact Or.inl (Or.inl h)
      · rcases List.mem_cons.mp hy with rfl | hy
        · exact Or.inl (Or.inr hk.symm)
        · exact Or.inr ⟨y, hy, hk⟩

theorem mem_of_mem_foldl_dictInsert {f : α → String} {g : α → β} {l : List α}
    {d : List (String × β)} {p : String × β}
    (h : p ∈ l.foldl (fun d x => dictInsert d (f x) (g x)) d) :
    p ∈ d ∨ ∃ x ∈ l, p = (f x, g x) := by
  induction l generalizing d with
  | nil => exact Or.inl h
  | cons x xs ih =>
    rw [List.foldl_cons] at h
    rcases ih h with h' | ⟨y, hy, rfl⟩
    · rcases mem_of_mem_dictInsert h' with h'' | rfl
      · exact Or.inl h''
      · exact Or.inr ⟨x, by simp, rfl⟩
    · exact Or.inr ⟨y, List.mem_cons_of_mem x hy, rfl⟩

theorem mem_dictKeys_pyDictById {cs : List CloudClusterResponse} {k : String} :
    k ∈ dictKeys (pyDictById cs) ↔ ∃ c ∈ cs, c.cluster_id = k := by
  have h := mem_dictKeys_foldl_dictInsert (f := fun c : CloudClusterResponse => c.cluster_id)
    (g := fun c => c) (l := cs) (d := ([] : List (String × CloudClusterResponse))) (k := k)
  simpa [pyDictById, dictKeys] using h

theorem mem_pyDictById {cs : List CloudClusterResponse} {p : String × CloudClusterResponse}
    (h : p ∈ pyDictById cs) : p.2 ∈ cs ∧ p.1 = p.2.cluster_id := by
  have h' : p ∈ cs.foldl (fun d x => dictInsert d ((fun c : CloudClusterResponse => c.cluster_id) x)
      ((fun c : CloudClusterResponse => c) x)) [] := h
  rcases mem_of_mem_foldl_dictInsert h' with h'' | ⟨c, hc, hp⟩
  · simp at h''
  · subst hp
    exact ⟨hc, rfl⟩

theorem removeDevice_def (s : ManagerState) (d : CloudOutputDevice) :
    removeDevice s d = { s with
      events := s.events ++ teardownEvents d,
      registry := s.registry.filter (fun k => !(k == d.key)),
      remote_clusters := dictErase s.remote_clusters d.key } := by
  cases hc : d.connected <;> simp [removeDevice, logEvent, teardownEvents, hc, dictErase]

theorem applyRemoved_def (ds : List CloudOutputDevice) (s : ManagerState) :
    applyRemoved s ds = { s with
      events := s.events ++ (ds.map teardownEvents).flatten,
      registry := s.registry.filter (fun k => !(ds.any (fun d => k == d.key))),
      remote_clusters := s.remote_clusters.filter (fun p => !(ds.any (fun d => p.1 == d.key))) } := by
  induction ds generalizing s with
  | nil => simp [applyRemoved]
  | cons d ds ih =>
    have h1 : applyRemoved s (d :: ds) = applyRemoved (removeDevice s d) ds := rfl
    have hreg : (s.registry.filter (fun k => !(k == d.key))).filter
        (fun k => !(ds.any (fun d => k == d.key)))
        = s.registry.filter (fun k => !((k == d.key) || ds.any (fun d => k == d.key))) := by
      rw [List.filter_filter]
      exact List.filter_congr (fun k _ => by simp [Bool.not_or, Bool.and_comm])
    have hrc : ((dictErase s.remote_clusters d.key).filter
        (fun p => !(ds.any (fun d => p.1 == d.key))))
        = s.remote_clusters.filter (fun p => !((p.1 == d.key) || ds.any (fun d => p.1 == d.key))) := by
      rw [dictErase, List.filter_filter]
      exact List.filter_congr (fun p _ => by simp [Bool.not_or, Bool.and_comm])
    rw [h1, ih, removeDevice_def]
    simp [hreg, hrc]

theorem mem_registry_applyRemoved {s : ManagerState} {ds : List CloudOutputDevice} {k : String} :
    k ∈ (applyRemoved s ds).registry ↔ k ∈ s.registry ∧ ∀ d ∈ ds, ¬ k = d.key := by
  rw [applyRemoved_def]
  simp [List.mem_filter, List.any_eq_true]

theorem mem_rc_applyRemoved {s : ManagerState} {ds : List CloudOutputDevice}
    {p : String × CloudOutputDevice} :
    p ∈ (applyRemoved s ds).remote_clusters ↔
      p ∈ s.remote_clusters ∧ ∀ d ∈ ds, ¬ p.1 = d.key := by
  rw [applyRemoved_def]
  simp [List.mem_filter, List.any_eq_true]

theorem addDevice_def (s : ManagerState) (c : CloudClusterResponse) :
    addDevice s c = { s with
      events := s.events ++ [Event.registryAdd c.cluster_id],
      registry := s.registry ++ [c.cluster_id],
      remote_clusters := dictInsert s.remote_clusters c.cluster_id
        { key := c.cluster_id, host_name := c.host_name, connected := false,
          matchesNetworkKey := s.matcherFor c.cluster_id } } := by
  simp [addDevice, logEvent]

theorem applyAdded_def (cs : List CloudClusterResponse) (s : ManagerState) :
    applyAdded s cs = { s with
      events := s.events ++ cs.map (fun c => Event.registryAdd c.cluster_id),
      registry := s.registry ++ cs.map (fun c => c.cluster_id),
      remote_clusters := cs.foldl (fun rc c => dictInsert rc c.cluster_id
        { key := c.cluster_id, host_name := c.host_name, connected := false,
          matchesNetworkKey := s.matcherFor c.cluster_id }) s.remote_clusters } := by
  induction cs generalizing s with
  | nil => simp [applyAdded]
  | cons c cs ih =>
    have h1 : applyAdded s (c :: cs) = applyAdded (addDevice s c) cs := rfl
    rw [h1, ih, addDevice_def]
    simp [List.append_assoc]

theorem updateHost_def (s : ManagerState) (dc : CloudOutputDevice × CloudClusterResponse) :
    updateHost s dc = { s with
      remote_clusters := s.remote_clusters.map (fun p =>
        if p.1 == dc.1.key then (p.1, { p.2 with host_name := dc.2.host_name }) else p) } := rfl

theorem applyUpdates_def (us : List (CloudOutputDevice × CloudClusterResponse))
    (s : ManagerState) :
    applyUpdates s us = { s with
      remote_clusters := us.foldl (fun rc dc => rc.map (fun p =>
        if p.1 == dc.1.key then (p.1, { p.2 with host_name := dc.2.host_name }) else p))
        s.remote_clusters } := by
  induction us generalizing s with
  | nil => simp [applyUpdates]
  | cons dc us ih =>
    have h1 : applyUpdates s (dc :: us) = applyUpdates (updateHost s dc) us := rfl
    rw [h1, ih, updateHost_def]
    simp

theorem dictKeys_updatesFold (us : List (CloudOutputDevice × CloudClusterResponse))
    (rc : List (String × CloudOutputDevice)) :
    dictKeys (us.foldl (fun rc dc => rc.map (fun p =>
      if p.1 == dc.1.key then (p.1, { p.2 with host_name := dc.2.host_name }) else p)) rc)
      = dictKeys rc := by
  induction us generalizing rc with
  | nil => rfl
  | cons dc us ih =>
    rw [List.foldl_cons, ih, dictKeys_map_of_fst]
    intro p
    split <;> rfl

theorem mem_updatesFold {us : List (CloudOutputDevice × CloudClusterResponse)}
    {rc : List (String × CloudOutputDevice)} {p : String × CloudOutputDevice}
    (h : p ∈ us.foldl (fun rc dc => rc.map (fun p =>
      if p.1 == dc.1.key then (p.1, { p.2 with host_name := dc.2.host_name }) else p)) rc) :
    ∃ q ∈ rc, p.1 = q.1 ∧ p.2.key = q.2.key := by
  induction us generalizing rc with
  | nil => exact ⟨p, h, rfl, rfl⟩
  | cons dc us ih =>
    rw [List.foldl_cons] at h
    obtain ⟨q, hq, h1, h2⟩ := ih h
    rw [List.mem_map] at hq
    obtain ⟨r, hr, rfl⟩ := hq
    have h3 : (if (r.1 == dc.1.key) = true then
        (r.1, { r.2 with host_name := dc.2.host_name }) else r).1 = r.1 := by
      split <;> rfl
    have h4 : (if (r.1 == dc.1.key) = true then
        (r.1, { r.2 with host_name := dc.2.host_name }) else r).2.key = r.2.key := by
      split <;> rfl
    exact ⟨r, hr, h1.trans h3, h2.trans h4⟩

theorem connectDevice_def (s : ManagerState) (k : String) :
    connectDevice s k = { s with
      events := s.events ++ [Event.connect k],
      remote_clusters := s.remote_clusters.map (fun p =>
        if p.1 == k then (p.1, { p.2 with connected := true }) else p) } := by
  simp [connectDevice, logEvent]

theorem connectByNetworkKey_cases (s : ManagerState) (m : GlobalStack) :
    connectByNetworkKey s m = s ∨
      ∃ k m2, connectByNetworkKey s m = connectDevice { s with active_machine := some m2 } k := by
  unfold connectByNetworkKey
  split
  · exact Or.inl rfl
  · split
    · exact Or.inl rfl
    · split
      · exact Or.inl rfl
      · exact Or.inr ⟨_, _, rfl⟩

theorem connectToActiveMachine_cases (s : ManagerState) :
    connectToActiveMachine s = s ∨
    (∃ k, connectToActiveMachine s = connectDevice s k) ∨
    (∃ k m2, connectToActiveMachine s = connectDevice { s with active_machine := some m2 } k) := by
  unfold connectToActiveMachine
  split
  · exact Or.inl rfl
  · split
    · split
      · split
        · exact Or.inl rfl
        · exact Or.inr (Or.inl ⟨_, rfl⟩)
      · rcases connectByNetworkKey_cases s ‹GlobalStack› with h | ⟨k, m2, h⟩
        · exact Or.inl h
        · exact Or.inr (Or.inr ⟨k, m2, h⟩)
    · rcases connectByNetworkKey_cases s ‹GlobalStack› with h | ⟨k, m2, h⟩
      · exact Or.inl h
      · exact Or.inr (Or.inr ⟨k, m2, h⟩)

theorem connectToActiveMachine_registry (s : ManagerState) :
    (connectToActiveMachine s).registry = s.registry := by
  rcases connectToActiveMachine_cases s with h | ⟨k, h⟩ | ⟨k, m2, h⟩ <;> rw [h] <;> rfl

theorem connectToActiveMachine_timer (s : ManagerState) :
    (connectToActiveMachine s).update_timer = s.update_timer := by
  rcases connectToActiveMachine_cases s with h | ⟨k, h⟩ | ⟨k, m2, h⟩ <;> rw [h] <;> rfl

theorem connectToActiveMachine_counters (s : ManagerState) :
    (connectToActiveMachine s).running = s.running ∧
    (connectToActiveMachine s).isLoggedIn = s.isLoggedIn ∧
    (connectToActiveMachine s).loginSubscribed = s.loginSubscribed ∧
    (connectToActiveMachine s).machineChangedSubscribed = s.machineChangedSubscribed ∧
    (connectToActiveMachine s).timeoutConnected = s.timeoutConnected ∧
    (connectToActiveMachine s).messages = s.messages := by
  rcases connectToActiveMachine_cases s with h | ⟨k, h⟩ | ⟨k, m2, h⟩ <;> rw [h] <;>
    exact ⟨rfl, rfl, rfl, rfl, rfl, rfl⟩

theorem connectToActiveMachine_keys (s : ManagerState) :
    dictKeys (connectToActiveMachine s).remote_clusters = dictKeys s.remote_clusters := by
  rcases connectToActiveMachine_cases s with h | ⟨k, h⟩ | ⟨k, m2, h⟩ <;> rw [h] <;>
    (rw [connectDevice_def]
     exact dictKeys_map_of_fst (fun p => by dsimp only; split <;> rfl) _)

theorem connectToActiveMachine_events (s : ManagerState) :
    ∃ t, (connectToActiveMachine s).events = s.events ++ t ∧
      (t = [] ∨ ∃ k, t = [Event.connect k]) := by
  rcases connectToActiveMachine_cases s with h | ⟨k, h⟩ | ⟨k, m2, h⟩ <;> rw [h]
  · exact ⟨[], (List.append_nil _).symm, Or.inl rfl⟩
  · exact ⟨[Event.connect k], rfl, Or.inr ⟨k, rfl⟩⟩
  · exact ⟨[Event.connect k], rfl, Or.inr ⟨k, rfl⟩⟩

theorem connectToActiveMachine_keyfield {s : ManagerState}
    (h : ∀ p ∈ s.remote_clusters, p.2.key = p.1) :
    ∀ p ∈ (connectToActiveMachine s).remote_clusters, p.2.key = p.1 := by
  have hdev : ∀ s2 : ManagerState, (∀ p ∈ s2.remote_clusters, p.2.key = p.1) → ∀ k2 : String,
      ∀ p ∈ (connectDevice s2 k2).remote_clusters, p.2.key = p.1 := by
    intro s2 h2 k2 p hp
    rw [connectDevice_def] at hp
    simp only [List.mem_map] at hp
    obtain ⟨q, hq, rfl⟩ := hp
    have hk := h2 q hq
    split <;> simpa using hk
  rcases connectToActiveMachine_cases s with hc | ⟨k, hc⟩ | ⟨k, m2, hc⟩ <;> rw [hc]
  · exact h
  · exact hdev s h k
  · exact hdev { s with active_machine := some m2 } h k

theorem findChanges_removed (prev : List (String × CloudOutputDevice))
    (cur : List (String × CloudClusterResponse)) :
    (findChanges prev cur).1
      = (prev.filter (fun p => (dictLookup cur p.1).isNone)).map (·.2) := rfl

theorem findChanges_added (prev : List (String × CloudOutputDevice))
    (cur : List (String × CloudClusterResponse)) :
    (findChanges prev cur).2.1
      = (cur.filter (fun c => (dictLookup prev c.1).isNone)).map (·.2) := rfl

theorem findChanges_nil (prev : List (String × CloudOutputDevice)) :
    findChanges prev [] = (prev.map (·.2), [], []) := by
  simp [findChanges, dictLookup]

theorem onGetRemoteClustersFinished_def (s : ManagerState)
    (clusters : List CloudClusterResponse) :
    onGetRemoteClustersFinished s clusters =
      connectToActiveMachine (applyUpdates (applyAdded (applyRemoved s
        (findChanges s.remote_clusters (pyDictById (clusters.filter (fun c => c.is_online)))).1)
        (findChanges s.remote_clusters (pyDictById (clusters.filter (fun c => c.is_online)))).2.1)
        (findChanges s.remote_clusters (pyDictById (clusters.filter (fun c => c.is_online)))).2.2) :=
  rfl

theorem dictKeys_applyUpdates (s : ManagerState)
    (us : List (CloudOutputDevice × CloudClusterResponse)) :
    dictKeys (applyUpdates s us).remote_clusters = dictKeys s.remote_clusters := by
  rw [applyUpdates_def]
  exact dictKeys_updatesFold us s.remote_clusters

theorem mem_dictKeys_applyAdded (s : ManagerState) (cs : List CloudClusterResponse) (k : String) :
    k ∈ dictKeys (applyAdded s cs).remote_clusters ↔
      k ∈ dictKeys s.remote_clusters ∨ ∃ c ∈ cs, c.cluster_id = k := by
  rw [applyAdded_def]
  have h := mem_dictKeys_foldl_dictInsert (f := fun c : CloudClusterResponse => c.cluster_id)
    (g := fun c : CloudClusterResponse =>
      CloudOutputDevice.mk c.cluster_id c.host_name false (s.matcherFor c.cluster_id))
    (l := cs) (d := s.remote_clusters) (k := k)
  exact h

theorem mem_dictKeys_applyRemoved {s : ManagerState} {ds : List CloudOutputDevice} {k : String} :
    k ∈ dictKeys (applyRemoved s ds).remote_clusters ↔
      ∃ p ∈ s.remote_clusters, p.1 = k ∧ ∀ d ∈ ds, ¬ k = d.key := by
  constructor
  · intro hk
    simp only [dictKeys, List.mem_map] at hk
    obtain ⟨p, hp, rfl⟩ := hk
    rw [mem_rc_applyRemoved] at hp
    exact ⟨p, hp.1, rfl, hp.2⟩
  · rintro ⟨p, hp, rfl, hnd⟩
    simp only [dictKeys, List.mem_map]
    exact ⟨p, mem_rc_applyRemoved.mpr ⟨hp, hnd⟩, rfl⟩

theorem mem_dictKeys_onGet (s : ManagerState) (clusters : List CloudClusterResponse) (k : String)
    (hwf : ∀ p ∈ s.remote_clusters, p.2.key = p.1) :
    k ∈ dictKeys (onGetRemoteClustersFinished s clusters).remote_clusters ↔
      (dictLookup (pyDictById (clusters.filter (fun c => c.is_online))) k).isSome := by
  rw [onGetRemoteClustersFinished_def, connectToActiveMachine_keys, dictKeys_applyUpdates,
    mem_dictKeys_applyAdded, mem_dictKeys_applyRemoved]
  constructor
  · rintro (⟨p, hp, rfl, hnd⟩ | ⟨c, hc, rfl⟩)
    · by_contra hno
      have hnone : dictLookup (pyDictById (clusters.filter (fun c => c.is_online))) p.1 = none :=
        Option.not_isSome_iff_eq_none.mp hno
      have hmem : p.2 ∈ (findChanges s.remote_clusters
          (pyDictById (clusters.filter (fun c => c.is_online)))).1 := by
        rw [findChanges_removed]
        exact List.mem_map_of_mem _ (List.mem_filter.mpr ⟨hp, by simp [hnone]⟩)
      exact hnd p.2 hmem (hwf p hp).symm
    · rw [findChanges_added, List.mem_map] at hc
      obtain ⟨q, hq, rfl⟩ := hc
      rw [List.mem_filter] at hq
      have h2 := mem_pyDictById hq.1
      have h3 : q.2.cluster_id ∈ dictKeys (pyDictById (clusters.filter (fun c => c.is_online))) := by
        simp only [dictKeys]
        rw [← h2.2]
        exact List.mem_map_of_mem _ hq.1
      exact mem_dictKeys.mp h3
  · intro hsome
    have hkD : k ∈ dictKeys (pyDictById (clusters.filter (fun c => c.is_online))) :=
      mem_dictKeys.mpr hsome
    simp only [dictKeys, List.mem_map] at hkD
    obtain ⟨q, hqD, rfl⟩ := hkD
    by_cases hk : (dictLookup s.remote_clusters q.1).isSome
    · left
      have hmem : q.1 ∈ dictKeys s.remote_clusters := mem_dictKeys.mpr hk
      simp only [dictKeys, List.mem_map] at hmem
      obtain ⟨p, hp, hp1⟩ := hmem
      refine ⟨p, hp, hp1, ?_⟩
      intro d hd heq
      rw [findChanges_removed, List.mem_map] at hd
      obtain ⟨r, hr, rfl⟩ := hd
      rw [List.mem_filter] at hr
      have hr1 : q.1 = r.1 := heq.trans (hwf r hr.1)
      have hrnone := Option.isNone_iff_eq_none.mp hr.2
      rw [← hr1] at hrnone
      rw [hrnone] at hsome
      simp at hsome
    · right
      refine ⟨q.2, ?_, (mem_pyDictById hqD).2.symm⟩
      rw [findChanges_added]
      refine List.mem_map_of_mem _ (List.mem_filter.mpr ⟨hqD, ?_⟩)
      simp [Option.not_isSome_iff_eq_none.mp hk]

theorem mem_registry_applyAdded {s : ManagerState} {cs : List CloudClusterResponse} {k : String} :
    k ∈ (applyAdded s cs).registry ↔ k ∈ s.registry ∨ ∃ c ∈ cs, c.cluster_id = k := by
  rw [applyAdded_def]
  simp [List.mem_append, List.mem_map]

theorem applyRemoved_frame (s : ManagerState) (ds : List CloudOutputDevice) :
    (applyRemoved s ds).update_timer = s.update_timer ∧
    (applyRemoved s ds).running = s.running ∧
    (applyRemoved s ds).isLoggedIn = s.isLoggedIn ∧
    (applyRemoved s ds).loginSubscribed = s.loginSubscribed ∧
    (applyRemoved s ds).machineChangedSubscribed = s.machineChangedSubscribed ∧
    (applyRemoved s ds).timeoutConnected = s.timeoutConnected ∧
    (applyRemoved s ds).messages = s.messages ∧
    (applyRemoved s ds).active_machine = s.active_machine ∧
    (applyRemoved s ds).matcherFor = s.matcherFor := by
  rw [applyRemoved_def]
  exact ⟨rfl, rfl, rfl, rfl, rfl, rfl, rfl, rfl, rfl⟩

theorem applyAdded_frame (s : ManagerState) (cs : List CloudClusterResponse) :
    (applyAdded s cs).update_timer = s.update_timer ∧
    (applyAdded s cs).running = s.running ∧
    (applyAdded s cs).isLoggedIn = s.isLoggedIn ∧
    (applyAdded s cs).loginSubscribed = s.loginSubscribed ∧
    (applyAdded s cs).machineChangedSubscribed = s.machineChangedSubscribed ∧
    (applyAdded s cs).timeoutConnected = s.timeoutConnected ∧
    (applyAdded s cs).messages = s.messages ∧
    (applyAdded s cs).active_machine = s.active_machine ∧
    (applyAdded s cs).matcherFor = s.matcherFor := by
  rw [applyAdded_def]
  exact ⟨rfl, rfl, rfl, rfl, rfl, rfl, rfl, rfl, rfl⟩

theorem applyUpdates_frame (s : ManagerState)
    (us : List (CloudOutputDevice × CloudClusterResponse)) :
    (applyUpdates s us).registry = s.registry ∧
    (applyUpdates s us).events = s.events ∧
    (applyUpdates s us).update_timer = s.update_timer ∧
    (applyUpdates s us).running = s.running ∧
    (applyUpdates s us).isLoggedIn = s.isLoggedIn ∧
    (applyUpdates s us).loginSubscribed = s.loginSubscribed ∧
    (applyUpdates s us).machineChangedSubscribed = s.machineChangedSubscribed ∧
    (applyUpdates s us).timeoutConnected = s.timeoutConnected ∧
    (applyUpdates s us).messages = s.messages ∧
    (applyUpdates s us).active_machine = s.active_machine := by
  rw [applyUpdates_def]
  exact ⟨rfl, rfl, rfl, rfl, rfl, rfl, rfl, rfl, rfl, rfl⟩

theorem onGet_frame (s : ManagerState) (clusters : List CloudClusterResponse) :
    (onGetRemoteClustersFinished s clusters).update_timer = s.update_timer ∧
    (onGetRemoteClustersFinished s clusters).running = s.running ∧
    (onGetRemoteClustersFinished s clusters).isLoggedIn = s.isLoggedIn ∧
    (onGetRemoteClustersFinished s clusters).loginSubscribed = s.loginSubscribed ∧
    (onGetRemoteClustersFinished s clusters).machineChangedSubscribed
      = s.machineChangedSubscribed ∧
    (onGetRemoteClustersFinished s clusters).timeoutConnected = s.timeoutConnected ∧
    (onGetRemoteClustersFinished s clusters).messages = s.messages := by
  rw [onGetRemoteClustersFinished_def]
  have h4 := connectToActiveMachine_counters (applyUpdates (applyAdded (applyRemoved s
    (findChanges s.remote_clusters (pyDictById (clusters.filter (fun c => c.is_online)))).1)
    (findChanges s.remote_clusters (pyDictById (clusters.filter (fun c => c.is_online)))).2.1)
    (findChanges s.remote_clusters (pyDictById (clusters.filter (fun c => c.is_online)))).2.2)
  have h5 := connectToActiveMachine_timer (applyUpdates (applyAdded (applyRemoved s
    (findChanges s.remote_clusters (pyDictById (clusters.filter (fun c => c.is_online)))).1)
    (findChanges s.remote_clusters (pyDictById (clusters.filter (fun c => c.is_online)))).2.1)
    (findChanges s.remote_clusters (pyDictById (clusters.filter (fun c => c.is_online)))).2.2)
  have h3 := applyUpdates_frame (applyAdded (applyRemoved s
    (findChanges s.remote_clusters (pyDictById (clusters.filter (fun c => c.is_online)))).1)
    (findChanges s.remote_clusters (pyDictById (clusters.filter (fun c => c.is_online)))).2.1)
    (findChanges s.remote_clusters (pyDictById (clusters.filter (fun c => c.is_online)))).2.2
  have h2 := applyAdded_frame (applyRemoved s
    (findChanges s.remote_clusters (pyDictById (clusters.filter (fun c => c.is_online)))).1)
    (findChanges s.remote_clusters (pyDictById (clusters.filter (fun c => c.is_online)))).2.1
  have h1 := applyRemoved_frame s
    (findChanges s.remote_clusters (pyDictById (clusters.filter (fun c => c.is_online)))).1
  refine ⟨?_, ?_, ?_, ?_, ?_, ?_, ?_⟩
  · rw [h5, h3.2.2.1, h2.1, h1.1]
  · rw [h4.1, h3.2.2.2.1, h2.2.1, h1.2.1]
  · rw [h4.2.1, h3.2.2.2.2.1, h2.2.2.1, h1.2.2.1]
  · rw [h4.2.2.1, h3.2.2.2.2.2.1, h2.2.2.2.1, h1.2.2.2.1]
  · rw [h4.2.2.2.1, h3.2.2.2.2.2.2.1, h2.2.2.2.2.1, h1.2.2.2.2.1]
  · rw [h4.2.2.2.2.1, h3.2.2.2.2.2.2.2.1, h2.2.2.2.2.2.1, h1.2.2.2.2.2.1]
  · rw [h4.2.2.2.2.2, h3.2.2.2.2.2.2.2.2.1, h2.2.2.2.2.2.2.1, h1.2.2.2.2.2.2.1]

theorem mem_registry_onGet {s : ManagerState} {clusters : List CloudClusterResponse} {k : String} :
    k ∈ (onGetRemoteClustersFinished s clusters).registry ↔
      (k ∈ s.registry ∧ ∀ d ∈ (findChanges s.remote_clusters
        (pyDictById (clusters.filter (fun c => c.is_online)))).1, ¬ k = d.key) ∨
      ∃ c ∈ (findChanges s.remote_clusters
        (pyDictById (clusters.filter (fun c => c.is_online)))).2.1, c.cluster_id = k := by
  rw [onGetRemoteClustersFinished_def, connectToActiveMachine_registry,
    (applyUpdates_frame _ _).1, mem_registry_applyAdded, mem_registry_applyRemoved]

theorem onGet_events (s : ManagerState) (clusters : List CloudClusterResponse) :
    ∃ t, (onGetRemoteClustersFinished s clusters).events
      = s.events
        ++ ((findChanges s.remote_clusters
            (pyDictById (clusters.filter (fun c => c.is_online)))).1.map teardownEvents).flatten
        ++ (findChanges s.remote_clusters
            (pyDictById (clusters.filter (fun c => c.is_online)))).2.1.map
              (fun c => Event.registryAdd c.cluster_id)
        ++ t
      ∧ (t = [] ∨ ∃ k, t = [Event.connect k]) := by
  rw [onGetRemoteClustersFinished_def]
  obtain ⟨t, ht, hor⟩ := connectToActiveMachine_events (applyUpdates (applyAdded (applyRemoved s
    (findChanges s.remote_clusters (pyDictById (clusters.filter (fun c => c.is_online)))).1)
    (findChanges s.remote_clusters (pyDictById (clusters.filter (fun c => c.is_online)))).2.1)
    (findChanges s.remote_clusters (pyDictById (clusters.filter (fun c => c.is_online)))).2.2)
  refine ⟨t, ?_, hor⟩
  rw [ht, (applyUpdates_frame _ _).2.1, applyAdded_def]
  simp only [applyRemoved_def]

theorem onGet_keyfield {s : ManagerState} {clusters : List CloudClusterResponse}
    (hwf : ∀ p ∈ s.remote_clusters, p.2.key = p.1) :
    ∀ p ∈ (onGetRemoteClustersFinished s clusters).remote_clusters, p.2.key = p.1 := by
  rw [onGetRemoteClustersFinished_def]
  apply connectToActiveMachine_keyfield
  intro p hp
  rw [applyUpdates_def] at hp
  obtain ⟨q, hq, h1, h2⟩ := mem_updatesFold hp
  rw [applyAdded_def] at hq
  rcases mem_of_mem_foldl_dictInsert (f := fun c : CloudClusterResponse => c.cluster_id)
    (g := fun c : CloudClusterResponse =>
      CloudOutputDevice.mk c.cluster_id c.host_name false
        ((applyRemoved s (findChanges s.remote_clusters
          (pyDictById (clusters.filter (fun c => c.is_online)))).1).matcherFor c.cluster_id))
    hq with hq' | ⟨c, _, rfl⟩
  · rw [mem_rc_applyRemoved] at hq'
    rw [h2, h1]
    exact hwf q hq'.1
  · rw [h2, h1]

theorem mem_registry_onGet_isSome {s : ManagerState} {cs : List CloudClusterResponse} {k : String}
    (hinv : managerInv s) :
    k ∈ (onGetRemoteClustersFinished s cs).registry ↔
      (dictLookup (pyDictById (cs.filter (fun c => c.is_online))) k).isSome := by
  rw [← mem_dictKeys_onGet s cs k hinv.2]
  rw [mem_registry_onGet, onGetRemoteClustersFinished_def, connectToActiveMachine_keys,
    dictKeys_applyUpdates, mem_dictKeys_applyAdded, mem_dictKeys_applyRemoved]
  have hreg : k ∈ s.registry ↔ ∃ p ∈ s.remote_clusters, p.1 = k := by
    rw [← hinv.1]
    simp [dictKeys, List.mem_map]
  rw [hreg]
  constructor
  · rintro (⟨⟨p, hp, hk⟩, hall⟩ | h)
    · exact Or.inl ⟨p, hp, hk, hall⟩
    · exact Or.inr h
  · rintro (⟨p, hp, hk, hall⟩ | h)
    · exact Or.inl ⟨⟨p, hp, hk⟩, hall⟩
    · exact Or.inr h

theorem managerInv_onGet {s : ManagerState} {cs : List CloudClusterResponse}
    (h : managerInv s) : managerInv (onGetRemoteClustersFinished s cs) :=
  ⟨fun k => (mem_dictKeys_onGet s cs k h.2).trans (mem_registry_onGet_isSome h).symm,
   onGet_keyfield h.2⟩

theorem managerInv_cam {s : ManagerState} (h : managerInv s) :
    managerInv (connectToActiveMachine s) := by
  refine ⟨fun k => ?_, connectToActiveMachine_keyfield h.2⟩
  rw [connectToActiveMachine_registry, connectToActiveMachine_keys]
  exact h.1 k

theorem onLoginStateChanged_false_def (s : ManagerState) :
    onLoginStateChanged s false = onGetRemoteClustersFinished
      (if s.update_timer.active then
        { logEvent s Event.timerStop with
          update_timer := { s.update_timer with active := false } }
      else s) [] := rfl

theorem onLoginStateChanged_true_def (s : ManagerState) :
    onLoginStateChanged s true = getRemoteClusters
      (if s.update_timer.active then s
      else { logEvent s Event.timerStart with
             update_timer := { s.update_timer with active := true } }) := rfl

theorem managerInv_onLogin {s : ManagerState} (h : managerInv s) :
    ∀ b, managerInv (onLoginStateChanged s b) := by
  intro b
  cases b
  · rw [onLoginStateChanged_false_def]
    apply managerInv_onGet
    split
    · exact h
    · exact h
  · rw [onLoginStateChanged_true_def]
    split
    · exact h
    · exact h

theorem managerInv_start {s : ManagerState} (h : managerInv s) : managerInv (start s) := by
  unfold start
  split
  · exact h
  · refine managerInv_onLogin ?_ _
    exact h

theorem managerInv_stop {s : ManagerState} (h : managerInv s) : managerInv (stop s) := by
  unfold stop
  split
  · exact h
  · refine managerInv_onLogin ?_ _
    exact h

theorem logout_timer_inactive (s : ManagerState) :
    (onLoginStateChanged s false).update_timer.active = false := by
  rw [onLoginStateChanged_false_def, (onGet_frame _ _).1]
  split
  · rfl
  · next h => simpa using h

theorem pyDictById_nil : pyDictById [] = [] := rfl

theorem onGet_nil_drain (s : ManagerState) (hwf : ∀ p ∈ s.remote_clusters, p.2.key = p.1) :
    (onGetRemoteClustersFinished s []).remote_clusters = [] ∧
    ∀ p ∈ s.remote_clusters,
      p.1 ∉ (onGetRemoteClustersFinished s []).registry ∧
      Event.close p.1 ∈ (onGetRemoteClustersFinished s []).events ∧
      Event.registryRemove p.1 ∈ (onGetRemoteClustersFinished s []).events ∧
      (p.2.connected = true → Event.disconnect p.1 ∈ (onGetRemoteClustersFinished s []).events) := by
  have hrem : (findChanges s.remote_clusters
      (pyDictById (List.filter (fun c => c.is_online) []))).1 = s.remote_clusters.map (·.2) := by
    rw [List.filter_nil, pyDictById_nil, findChanges_nil]
  have hadd : (findChanges s.remote_clusters
      (pyDictById (List.filter (fun c => c.is_online) []))).2.1 = [] := by
    rw [List.filter_nil, pyDictById_nil, findChanges_nil]
  have hflat : ∀ p ∈ s.remote_clusters, ∀ e ∈ teardownEvents p.2,
      e ∈ ((findChanges s.remote_clusters
        (pyDictById (List.filter (fun c => c.is_online) []))).1.map teardownEvents).flatten := by
    intro p hp e he
    rw [List.mem_flatten]
    refine ⟨teardownEvents p.2, List.mem_map_of_mem _ ?_, he⟩
    rw [hrem]
    exact List.mem_map_of_mem _ hp
  constructor
  · rw [List.eq_nil_iff_forall_not_mem]
    intro p hp
    have hk : p.1 ∈ dictKeys (onGetRemoteClustersFinished s []).remote_clusters :=
      List.mem_map_of_mem _ hp
    have := (mem_dictKeys_onGet s [] p.1 hwf).mp hk
    simp [pyDictById, dictLookup] at this
  · intro p hp
    refine ⟨?_, ?_, ?_, ?_⟩
    · intro hmem
      rcases mem_registry_onGet.mp hmem with ⟨_, hall⟩ | ⟨c, hc, _⟩
      · refine hall p.2 ?_ (hwf p hp).symm
        rw [hrem]
        exact List.mem_map_of_mem _ hp
      · rw [hadd] at hc
        simp at hc
    · obtain ⟨t, ht, _⟩ := onGet_events s []
      rw [ht]
      refine List.mem_append_left _ (List.mem_append_left _ (List.mem_append_right _ ?_))
      refine hflat p hp _ ?_
      rw [teardownEvents, hwf p hp]
      simp
    · obtain ⟨t, ht, _⟩ := onGet_events s []
      rw [ht]
      refine List.mem_append_left _ (List.mem_append_left _ (List.mem_append_right _ ?_))
      refine hflat p hp _ ?_
      rw [teardownEvents, hwf p hp]
      simp
    · intro hconn
      obtain ⟨t, ht, _⟩ := onGet_events s []
      rw [ht]
      refine List.mem_append_left _ (List.mem_append_left _ (List.mem_append_right _ ?_))
      refine hflat p hp _ ?_
      rw [teardownEvents, hwf p hp, hconn]
      simp

theorem logout_drain (s : ManagerState) (hwf : ∀ p ∈ s.remote_clusters, p.2.key = p.1) :
    (onLoginStateChanged s false).remote_clusters = [] ∧
    ∀ p ∈ s.remote_clusters,
      p.1 ∉ (onLoginStateChanged s false).registry ∧
      Event.close p.1 ∈ (onLoginStateChanged s false).events ∧
      Event.registryRemove p.1 ∈ (onLoginStateChanged s false).events ∧
      (p.2.connected = true → Event.disconnect p.1 ∈ (onLoginStateChanged s false).events) := by
  rw [onLoginStateChanged_false_def]
  split
  · exact onGet_nil_drain _ hwf
  · exact onGet_nil_drain _ hwf

/-- C1: on a manager whose running flag is set and whose table entries hold
devices keyed like their entries, stop() drains the table: every device of
the table gets its close() call (and a disconnect() call when it was
connected) and its registry removal, the table ends empty, and none of the
old keys is left in the output device registry. -/
theorem C1_stop_drains (s : ManagerState) (hrun : s.running = true)
    (hwf : ∀ p ∈ s.remote_clusters, p.2.key = p.1) :
    (stop s).remote_clusters = [] ∧
    ∀ p ∈ s.remote_clusters,
      p.1 ∉ (stop s).registry ∧
      Event.close p.1 ∈ (stop s).events ∧
      Event.registryRemove p.1 ∈ (stop s).events ∧
      (p.2.connected = true → Event.disconnect p.1 ∈ (stop s).events) := by
  have hs : stop s = onLoginStateChanged { s with
      loginSubscribed := s.loginSubscribed - 1,
      machineChangedSubscribed := s.machineChangedSubscribed - 1,
      timeoutConnected := s.timeoutConnected - 1 } false := by
    unfold stop
    rw [hrun]
    rfl
  rw [hs]
  exact logout_drain _ hwf

/-- C1 witness: stop on a concrete running manager holding devices A and B
empties the table, clears A from the registry and closes A. -/
theorem C1_witness :
    (stop runningState).remote_clusters = [] ∧
    "A" ∉ (stop runningState).registry ∧
    Event.close "A" ∈ (stop runningState).events := by
  have h := C1_stop_drains runningState rfl (by decide)
  have hA := h.2 ("A", devA) (by simp [runningState, sampleState])
  exact ⟨h.1, hA.1, hA.2.1⟩

/-- C2: the claim that a poll response arriving after stop() is ignored is
false on the code: _onGetRemoteClustersFinished never reads _running, so
the late response is applied.  Concretely, stop() on a running manager
drains the table to [], and a late response for cluster c1 then puts c1
back into the table. -/
theorem C2_late_response_applied :
    (stop runningState).remote_clusters = [] ∧
    dictKeys (onGetRemoteClustersFinished (stop runningState)
      [clusterC1]).remote_clusters = ["c1"] :=
  ⟨rfl, rfl⟩

/-- C4: a failed poll leaves the device table and the registry untouched
and shows exactly one message whose text is the error titles joined in
order by ". "; on the two errors of the spec example the text is
"timeout. auth expired". -/
theorem C4_api_error (s : ManagerState) (errors : List CloudErrorObject) :
    (onApiError s errors).remote_clusters = s.remote_clusters ∧
    (onApiError s errors).registry = s.registry ∧
    (onApiError s errors).messages
      = s.messages ++ [String.intercalate ". " (errors.map (·.title))] ∧
    (onApiError s errors).events
      = s.events ++ [Event.messageShown (String.intercalate ". " (errors.map (·.title)))] ∧
    (onApiError s [{ title := "timeout" }, { title := "auth expired" }]).messages
      = s.messages ++ ["timeout. auth expired"] :=
  ⟨rfl, rfl, rfl, rfl, rfl⟩

/-- C9: when the login state becomes false the timer ends up inactive and
the synthetic empty reconciliation drains the table: the diff of the
table against the empty result set has removed = all devices and
added = none, and the resulting table is empty. -/
theorem C9_logout_drain (s : ManagerState)
    (hwf : ∀ p ∈ s.remote_clusters, p.2.key = p.1) :
    (onLoginStateChanged s false).update_timer.active = false ∧
    (findChanges s.remote_clusters []).1 = s.remote_clusters.map (·.2) ∧
    (findChanges s.remote_clusters []).2.1 = [] ∧
    (onLoginStateChanged s false).remote_clusters = [] := by
  refine ⟨logout_timer_inactive s, ?_, ?_, (logout_drain s hwf).1⟩
  · rw [findChanges_nil]
  · rw [findChanges_nil]

/-- C9 witness: the logout evaluation on the concrete two-device state
stops the timer and empties the table. -/
theorem C9_witness :
    (onLoginStateChanged sampleState false).update_timer.active = false ∧
    (onLoginStateChanged sampleState false).remote_clusters = [] := by
  have h := C9_logout_drain sampleState (by decide)
  exact ⟨h.1, h.2.2.2⟩

/-- C10: every operation of the manager preserves the table and registry
synchrony invariant: a key is in the device table exactly when this
manager has added it to the output device registry and not removed it,
and every table entry holds a device constructed with the entry key. -/
theorem C10_inv_preserved (s : ManagerState) (h : managerInv s) :
    managerInv (start s) ∧ managerInv (stop s) ∧
    (∀ b, managerInv (onLoginStateChanged s b)) ∧
    (∀ cs, managerInv (onGetRemoteClustersFinished s cs)) ∧
    (∀ es, managerInv (onApiError s es)) ∧
    managerInv (connectToActiveMachine s) ∧
    managerInv (getRemoteClusters s) :=
  ⟨managerInv_start h, managerInv_stop h, managerInv_onLogin h,
   fun _ => managerInv_onGet h, fun _ => h, managerInv_cam h, h⟩

/-- C10 witness: the invariant holds after a poll result that removes A
and B and adds c1 on the concrete two-device state. -/
theorem C10_witness : managerInv (onGetRemoteClustersFinished sampleState [clusterC1]) :=
  (C10_inv_preserved sampleState ⟨fun _ => Iff.rfl, by decide⟩).2.2.2.1 [clusterC1]

/-- C3 counterexample: start() on a not-running, logged-out manager does
not arm the poll timer: the timer is still inactive afterwards, against
the claim that start() arms the repeating 50 second poll timer. -/
theorem C3_counterexample :
    (initState false none constFalseMatcher).running = false ∧
    ¬ (start (initState false none constFalseMatcher)).update_timer.active = true :=
  ⟨rfl, by decide⟩

/-- C3 amended: start() on a running manager is a no-op; on a not-running
manager it subscribes once to each of the login event, the machine
changed event and the timer timeout, then synthesizes a login evaluation
with the current login state, so the timer (whose 50 second repeating
configuration from construction is untouched) ends active exactly when
the user is logged in, and a logged-in start traces a timer start (when
the timer was off) followed by a poll request. -/
theorem C3_start_behaviour (s : ManagerState) :
    (s.running = true → start s = s) ∧
    (s.running = false →
      (start s).loginSubscribed = s.loginSubscribed + 1 ∧
      (start s).machineChangedSubscribed = s.machineChangedSubscribed + 1 ∧
      (start s).timeoutConnected = s.timeoutConnected + 1 ∧
      (start s).update_timer.active = s.isLoggedIn ∧
      (start s).update_timer.interval = s.update_timer.interval ∧
      (start s).update_timer.singleShot = s.update_timer.singleShot ∧
      (s.isLoggedIn = true →
        (start s).events = s.events
          ++ (if s.update_timer.active then [] else [Event.timerStart])
          ++ [Event.pollRequested])) ∧
    (∀ b m f, (initState b m f).update_timer
      = { interval := 50000, singleShot := false, active := false }) := by
  have hstart : s.running = false → start s = onLoginStateChanged { s with
      loginSubscribed := s.loginSubscribed + 1,
      machineChangedSubscribed := s.machineChangedSubscribed + 1,
      timeoutConnected := s.timeoutConnected + 1 } s.isLoggedIn := by
    intro h
    unfold start
    rw [h]
    rfl
  refine ⟨?_, ?_, fun b m f => rfl⟩
  · intro h
    unfold start
    rw [h]
    rfl
  · intro h
    rw [hstart h]
    cases hb : s.isLoggedIn with
    | true =>
      rw [onLoginStateChanged_true_def]
      by_cases hact : s.update_timer.active = true
      · simp [getRemoteClusters, logEvent, hact]
      · have ha2 : s.update_timer.active = false := by simpa using hact
        simp [getRemoteClusters, logEvent, ha2]
    | false =>
      refine ⟨?_, ?_, ?_, ?_, ?_, ?_, ?_⟩
      · rw [onLoginStateChanged_false_def, (onGet_frame _ _).2.2.2.1]
        split <;> rfl
      · rw [onLoginStateChanged_false_def, (onGet_frame _ _).2.2.2.2.1]
        split <;> rfl
      · rw [onLoginStateChanged_false_def, (onGet_frame _ _).2.2.2.2.2.1]
        split <;> rfl
      · exact logout_timer_inactive _
      · rw [onLoginStateChanged_false_def, (onGet_frame _ _).1]
        split <;> rfl
      · rw [onLoginStateChanged_false_def, (onGet_frame _ _).1]
        split <;> rfl
      · intro habs
        exact absurd habs (by decide)

/-- C3 witness: start on a fresh logged-in manager arms the timer and
records the first subscription. -/
theorem C3_start_witness :
    (start (initState true none constFalseMatcher)).update_timer.active = true ∧
    (start (initState true none constFalseMatcher)).loginSubscribed = 1 := by
  have h := (C3_start_behaviour (initState true none constFalseMatcher)).2.1 rfl
  exact ⟨h.2.2.2.1, h.1⟩

/-- C5: the source resolver connectToActiveMachine coincides, on every
state, with the Connection Resolver algorithm written from the words of
the spec: no active machine means no-op; a stored cluster identity naming
a device of the table connects it only when not already connected and
never falls through; otherwise the network key fallback binds and
connects the first matching device, and absence of key or match does
nothing. -/
theorem C5_resolver_refines_spec (s : ManagerState) :
    connectToActiveMachine s = connectResolverSpec s := by
  have hfb : ∀ m, connectByNetworkKey s m = resolverSpecFallback s m := by
    intro m
    unfold connectByNetworkKey resolverSpecFallback
    split
    · rfl
    · split
      · rfl
      · split
        · next heq => rw [heq]
        · next d heq => rw [heq]
  unfold connectToActiveMachine connectResolverSpec
  split
  · rfl
  · split
    · split
      · split <;> rfl
      · exact hfb _
    · exact hfb _

/-- C6: sticky binding: when the stored cluster identity of the active
machine is a key of the device table, the resolver leaves the machine
(and in particular its metadata) unchanged, even if some other device
would match the network key of the machine; metadata is rewritten only
when the stored identity no longer resolves to a table entry. -/
theorem C6_sticky_binding (s : ManagerState) (m : GlobalStack) (cid : String)
    (hm : s.active_machine = some m)
    (hmeta : getMetaDataEntry m META_CLUSTER_ID = some cid)
    (hmem : cid ∈ dictKeys s.remote_clusters) :
    (connectToActiveMachine s).active_machine = s.active_machine := by
  obtain ⟨d, hd⟩ := Option.isSome_iff_exists.mp (mem_dictKeys.mp hmem)
  have key : connectToActiveMachine s = if d.connected then s else connectDevice s cid := by
    unfold connectToActiveMachine
    simp only [hm, hmeta, hd]
  rw [key]
  split
  · rfl
  · rw [connectDevice_def]

/-- C6 witness: the concrete machine stays bound to A although device B
matches its network key nk. -/
theorem C6_sticky_witness :
    (connectToActiveMachine stickyState).active_machine = stickyState.active_machine :=
  C6_sticky_binding stickyState machBound "A" rfl rfl (by decide)

/-- C7: a poll result is processed identically to its restriction to
online records, and a key is in the resulting table exactly when some
online record of the response carries it; in particular a record that
went offline is treated like an absent one and its key leaves the
table. -/
theorem C7_online_filter (s : ManagerState) (clusters : List CloudClusterResponse)
    (hwf : ∀ p ∈ s.remote_clusters, p.2.key = p.1) :
    onGetRemoteClustersFinished s clusters
      = onGetRemoteClustersFinished s (clusters.filter (fun c => c.is_online)) ∧
    ∀ k, k ∈ dictKeys (onGetRemoteClustersFinished s clusters).remote_clusters ↔
      ∃ c ∈ clusters, c.is_online = true ∧ c.cluster_id = k := by
  constructor
  · have hfil : (clusters.filter (fun c => c.is_online)).filter (fun c => c.is_online)
        = clusters.filter (fun c => c.is_online) := by
      rw [List.filter_filter]
      exact List.filter_congr (fun c _ => Bool.and_self _)
    rw [onGetRemoteClustersFinished_def s clusters,
      onGetRemoteClustersFinished_def s (clusters.filter (fun c => c.is_online)), hfil]
  · intro k
    rw [mem_dictKeys_onGet s clusters k hwf, ← mem_dictKeys, mem_dictKeys_pyDictById]
    constructor
    · rintro ⟨c, hc, rfl⟩
      rw [List.mem_filter] at hc
      exact ⟨c, hc.1, hc.2, rfl⟩
    · rintro ⟨c, hc, hon, rfl⟩
      exact ⟨c, List.mem_filter.mpr ⟨hc, hon⟩, rfl⟩

/-- C7 witness: a response reporting cluster A as offline removes key A
from the concrete table that held it. -/
theorem C7_witness :
    "A" ∉ dictKeys (onGetRemoteClustersFinished sampleState
      [clusterAOffline]).remote_clusters := by
  intro h
  obtain ⟨c, hc, hon, _⟩ :=
    ((C7_online_filter sampleState [clusterAOffline] (by decide)).2 "A").mp h
  rw [List.mem_singleton] at hc
  subst hc
  exact absurd hon (by decide)

/-- C8: the trace of a poll result application is the removed teardowns
first (per removed device: disconnect only when connected, then one
close, then the registry removal) followed by the registrations of the
added records, followed by at most one connect from the resolver (the
update pairs call nothing); and each removed device ends absent from both
the table and the registry. -/
theorem C8_removal_order (s : ManagerState) (clusters : List CloudClusterResponse)
    (hwf : ∀ p ∈ s.remote_clusters, p.2.key = p.1) :
    (∃ t, (onGetRemoteClustersFinished s clusters).events
      = s.events
        ++ ((findChanges s.remote_clusters
            (pyDictById (clusters.filter (fun c => c.is_online)))).1.map teardownEvents).flatten
        ++ (findChanges s.remote_clusters
            (pyDictById (clusters.filter (fun c => c.is_online)))).2.1.map
              (fun c => Event.registryAdd c.cluster_id)
        ++ t
      ∧ (t = [] ∨ ∃ k, t = [Event.connect k])) ∧
    ∀ d ∈ (findChanges s.remote_clusters
        (pyDictById (clusters.filter (fun c => c.is_online)))).1,
      d.key ∉ dictKeys (onGetRemoteClustersFinished s clusters).remote_clusters ∧
      d.key ∉ (onGetRemoteClustersFinished s clusters).registry := by
  refine ⟨onGet_events s clusters, ?_⟩
  intro d hd
  rw [findChanges_removed, List.mem_map] at hd
  obtain ⟨p, hp, rfl⟩ := hd
  rw [List.mem_filter] at hp
  have hnone := Option.isNone_iff_eq_none.mp hp.2
  have hkey := hwf p hp.1
  constructor
  · rw [hkey]
    intro hk
    have h2 := (mem_dictKeys_onGet s clusters p.1 hwf).mp hk
    rw [hnone] at h2
    simp at h2
  · rw [hkey]
    intro hk
    rcases mem_registry_onGet.mp hk with ⟨_, hall⟩ | ⟨c, hc, hcid⟩
    · refine hall p.2 ?_ hkey.symm
      rw [findChanges_removed]
      exact List.mem_map_of_mem _ (List.mem_filter.mpr hp)
    · rw [findChanges_added, List.mem_map] at hc
      obtain ⟨q, hq, rfl⟩ := hc
      rw [List.mem_filter] at hq
      have h2 := mem_pyDictById hq.1
      have hq1 : q.1 = p.1 := h2.2.trans hcid
      have h3 : q.1 ∈ dictKeys (pyDictById (clusters.filter (fun c => c.is_online))) := by
        simp only [dictKeys]
        exact List.mem_map_of_mem _ hq.1
      rw [mem_dictKeys, hq1, hnone] at h3
      simp at h3

/-- C8 witness: after an empty poll result on the concrete two-device
state, removed device A is gone from both the table and the registry. -/
theorem C8_witness :
    devA.key ∉ dictKeys (onGetRemoteClustersFinished sampleState []).remote_clusters ∧
    devA.key ∉ (onGetRemoteClustersFinished sampleState []).registry := by
  refine (C8_removal_order sampleState [] (by decide)).2 devA ?_
  rw [findChanges_removed]
  have hmem : ("A", devA) ∈ List.filter
      (fun p => (dictLookup (pyDictById (List.filter (fun c => c.is_online)
        ([] : List CloudClusterResponse))) p.1).isNone) sampleState.remote_clusters :=
    List.mem_filter.mpr ⟨by simp [sampleState], by decide⟩
  exact List.mem_map_of_mem (fun x => x.2) hmem

end CuraCloud
